import Mathlib

/-!
Shallow embedding of the game logic of src/game.py (superhuman-ultimate-ttt).

The source file defines a data model (SmallBoard, Board), a move-application
function makeMove, four evaluation functions (checkSmallWin, checkWin,
checkSmallDraw, checkDraw), a helper safe_int, and an interactive game loop.
The rendering and keyboard-input functions (blessed_input, render_box, ...)
have no game semantics and are not modelled.

In the source, makeMove returns the input board unchanged together with an
empty active-board list, and every evaluation function is a bare pass
(returning None).  The body of the interactive game loop is modelled here as
the pure function loopStep: one iteration of the loop, from a state
(board, active_small_boards, is_first_user) and the input string read from
the user, to what the iteration does (exit the program, re-prompt and
continue with an unchanged state, announce a winner and break, or advance to
the next state).  Python None is modelled as Option.none, Python int cell
values as Int, Python length-1 strings (the characters of the move string)
as Char.
-/

/-- Cells of a small board hold Python ints: 1 renders as x, -1 renders as o,
anything else (the initial 0) renders as empty. -/
structure SmallBoard where
  squares : List Int
  deriving DecidableEq

/-- The global board: a list of nine small boards. -/
structure Board where
  small_boards : List SmallBoard
  deriving DecidableEq

/-- Embedding of makeMove (src/game.py lines 221-225): the body binds
new_board to the input board, rebinds the active list to the empty list, and
returns the pair.  The move string and the player flag are ignored. -/
def makeMove (board : Board) (active_small_boards : List Int) (move : String)
    (is_first_user : Bool) : Board × List Int :=
  let new_board := board
  let active_small_boards : List Int := []
  let _ := move
  let _ := is_first_user
  (new_board, active_small_boards)

/-- Embedding of checkSmallWin (src/game.py lines 227-228): the body is pass,
so the function returns None on every input. -/
def checkSmallWin (small_board : SmallBoard) : Option Int :=
  let _ := small_board
  none

/-- Embedding of checkWin (src/game.py lines 230-231): the body is pass, so
the function returns None on every input. -/
def checkWin (board_position : Board) : Option Int :=
  let _ := board_position
  none

/-- Embedding of checkSmallDraw (src/game.py lines 233-234): pass. -/
def checkSmallDraw (small_board : SmallBoard) : Option Int :=
  let _ := small_board
  none

/-- Embedding of checkDraw (src/game.py lines 236-237): pass. -/
def checkDraw (board_position : Board) : Option Int :=
  let _ := board_position
  none

/-- Value of a nonempty all-digit character list read in base 10. -/
def digitsVal (cs : List Char) : Option Nat :=
  if cs = [] then none
  else if cs.all Char.isDigit then
    some (cs.foldl (fun a c => a * 10 + (c.toNat - 48)) 0)
  else none

/-- Embedding of safe_int (src/game.py lines 253-257): Python int(s) with the
ValueError branch returning -1.  Python int accepts an optional sign followed
by digits; this model parses an optional minus sign followed by ASCII digits
and returns -1 on anything else.  The differences to Python int (surrounding
whitespace, a plus sign, underscores, non-ASCII digits) cannot change the
behaviour of the program: in the game loop safe_int only influences the
outcome when its argument is one of the length-1 strings 1..9, on which the
two parsers agree. -/
def safe_int (s : String) : Int :=
  match s.data with
  | [] => -1
  | '-' :: rest =>
    match digitsVal rest with
    | some n => -(n : Int)
    | none => -1
  | cs =>
    match digitsVal cs with
    | some n => (n : Int)
    | none => -1

/-- Python truthiness of the value returned by checkWin: None and 0 are
falsy, every other int is truthy (if won_by_player: in the loop). -/
def pyTruthy : Option Int → Bool
  | none => false
  | some n => n != 0

/-- The board-selector characters accepted by the loop, modelling the list
of length-1 strings in the membership test on src/game.py line 281. -/
def digitChars : List Char :=
  ['1', '2', '3', '4', '5', '6', '7', '8', '9']

/-- The cell-selector characters accepted by the loop (line 281). -/
def positionChars : List Char :=
  ['a', 'b', 'c', 'd', 'e', 'f', 'g', 'h', 'i']

/-- Outcome of one iteration of the interactive game loop. -/
inductive StepResult where
  /-- the input was the literal string exit: the process terminates. -/
  | quitGame : StepResult
  /-- the input was rejected: the loop re-prompts (continue) carrying this
  board, active list and player flag into the next iteration. -/
  | retry (board : Board) (active_small_boards : List Int)
      (is_first_user : Bool) : StepResult
  /-- the win-announcement branch: player ... won is printed and the loop
  breaks. -/
  | winExit (won_by_player : Option Int) : StepResult
  /-- a move was applied and the loop continues with this board, active list
  and player flag. -/
  | advance (board : Board) (active_small_boards : List Int)
      (is_first_user : Bool) : StepResult
  deriving DecidableEq

/-- True on the results in which the loop body reached the makeMove call. -/
def StepResult.reachesMakeMove : StepResult → Bool
  | .winExit _ => true
  | .advance _ _ _ => true
  | _ => false

/-- True on the win-announcement result. -/
def StepResult.isWinExit : StepResult → Bool
  | .winExit _ => true
  | _ => false

/-- True on the process-exit result. -/
def StepResult.isQuit : StepResult → Bool
  | .quitGame => true
  | _ => false

/-- True on the re-prompt result. -/
def StepResult.isRetry : StepResult → Bool
  | .retry _ _ _ => true
  | _ => false

/-- Embedding of one iteration of the game loop (src/game.py lines 267-300):
read a move; exit on the literal string exit; reject (re-prompt, state
unchanged) unless the input has length 2, its first character is one of 1..9
whose safe_int value is in active_small_boards, and its second character is
one of a..i; otherwise call makeMove, take its board and active list, test
checkWin on the new board for the win-announcement branch, and flip
is_first_user. -/
def loopStep (board : Board) (active_small_boards : List Int)
    (is_first_user : Bool) (move : String) : StepResult :=
  if move = "exit" then StepResult.quitGame
  else if move.length ≠ 2 then
    StepResult.retry board active_small_boards is_first_user
  else
    let move_board : Char := move.toList.getD 0 ' '
    let move_position : Char := move.toList.getD 1 ' '
    if move_board ∉ digitChars ∨
        safe_int (String.singleton move_board) ∉ active_small_boards ∨
        move_position ∉ positionChars then
      StepResult.retry board active_small_boards is_first_user
    else
      let moveRes := makeMove board active_small_boards move is_first_user
      let new_board := moveRes.1
      let new_active := moveRes.2
      let won_by_player := checkWin new_board
      if pyTruthy won_by_player then StepResult.winExit won_by_player
      else StepResult.advance new_board new_active (!is_first_user)

/-- A small board of nine zeros, as built on src/game.py lines 242-250. -/
def emptySmall : SmallBoard :=
  ⟨[0, 0, 0, 0, 0, 0, 0, 0, 0]⟩

/-- The initial global board (src/game.py lines 241-251). -/
def initialBoard : Board :=
  ⟨[emptySmall, emptySmall, emptySmall, emptySmall, emptySmall, emptySmall,
    emptySmall, emptySmall, emptySmall]⟩

/-- The initial active-board list (src/game.py line 262). -/
def activeAll : List Int :=
  [1, 2, 3, 4, 5, 6, 7, 8, 9]

/-- Number of occupied (nonzero) cells on the whole board. -/
def occupiedCount (b : Board) : Nat :=
  (b.small_boards.map (fun sb => (sb.squares.filter (fun v => v != 0)).length)).sum

/-- A small board whose top row is filled with the mark 1 of player one. -/
def topRowWonSmall : SmallBoard :=
  ⟨[1, 1, 1, 0, 0, 0, 0, 0, 0]⟩

/-- A global board whose first three small boards each have a completed top
row for player one: a won meta-line at meta-positions 0, 1, 2. -/
def metaWonBoard : Board :=
  ⟨[topRowWonSmall, topRowWonSmall, topRowWonSmall, emptySmall, emptySmall,
    emptySmall, emptySmall, emptySmall, emptySmall]⟩

/-- A global board whose small board 0 has a mark in its square a (index 0);
the move 1a targets exactly that occupied cell. -/
def occupiedCellBoard : Board :=
  ⟨[⟨[1, 0, 0, 0, 0, 0, 0, 0, 0]⟩, emptySmall, emptySmall, emptySmall,
    emptySmall, emptySmall, emptySmall, emptySmall, emptySmall]⟩

/-- Validity of a raw input string as claimed by the specification of the
loop: length exactly 2, first character one of 1..9 whose integer value is
in the current active-board list, second character one of a..i. -/
def specValidInput (active_small_boards : List Int) (m : String) : Bool :=
  decide (m.length = 2 ∧ m.toList.getD 0 ' ' ∈ digitChars ∧
    ((m.toList.getD 0 ' ').toNat : Int) - 48 ∈ active_small_boards ∧
    m.toList.getD 1 ' ' ∈ positionChars)

/-- On the nine digit characters, safe_int of the length-1 string agrees with
the numeric value of the character. -/
theorem safe_int_digit {c : Char} (h : c ∈ digitChars) :
    safe_int (String.singleton c) = (c.toNat : Int) - 48 := by
  fin_cases h <;> decide

/-- Closed form of loopStep: exit on the literal string exit, advance with
the unchanged board and an emptied active list on a valid input, retry with
the unchanged state otherwise. -/
theorem loopStep_eq (b : Board) (a : List Int) (f : Bool) (m : String) :
    loopStep b a f m =
      if m = "exit" then StepResult.quitGame
      else if m.length = 2 ∧ m.toList.getD 0 ' ' ∈ digitChars ∧
          safe_int (String.singleton (m.toList.getD 0 ' ')) ∈ a ∧
          m.toList.getD 1 ' ' ∈ positionChars then
        StepResult.advance b [] (!f)
      else StepResult.retry b a f := by
  unfold loopStep
  simp only [makeMove, checkWin, pyTruthy]
  split_ifs <;> first
    | rfl
    | tauto

/-- C1: the claim states that makeMove returns the playable set as the
singleton of the played cell index (when that sub-board is open) or the set
of open sub-board indices, empty exactly when the game is terminal.  The
code instead always returns the empty active list: evaluated at the very
first move 1a of a game, the returned playable set is empty although neither
checkWin nor checkDraw reports a terminal position. -/
theorem makeMove_first_move_empties_playable_set :
    (makeMove initialBoard activeAll "1a" true).2 = ([] : List Int) ∧
    checkWin (makeMove initialBoard activeAll "1a" true).1 = none ∧
    checkDraw (makeMove initialBoard activeAll "1a" true).1 = none :=
  ⟨rfl, rfl, rfl⟩

/-- C2: the claim states that makeMove occupies exactly one previously-empty
cell.  Evaluated at the first move 1a, the code returns the input board
unchanged and the number of occupied cells stays 0 instead of becoming 1. -/
theorem makeMove_first_move_places_no_mark :
    (makeMove initialBoard activeAll "1a" true).1 = initialBoard ∧
    occupiedCount (makeMove initialBoard activeAll "1a" true).1 = 0 ∧
    occupiedCount initialBoard = 0 := by
  refine ⟨rfl, ?_, ?_⟩ <;> decide

/-- C3: the claim states that a sub-board whose cells 0, 1, 2 all hold the
mark of player one evaluates to a win for player one.  checkSmallWin is an
unimplemented stub and returns None on that board. -/
theorem checkSmallWin_misses_top_row_win :
    checkSmallWin topRowWonSmall = none :=
  rfl

/-- C4: the claim states that a global board with three sub-boards won by
the same player along a meta-line evaluates to a win, and that the draw
test recognises an all-terminal meta-board.  checkWin and checkDraw are
unimplemented stubs and return None on the board whose sub-boards 0, 1, 2
each carry a completed top row for player one. -/
theorem checkWin_misses_meta_line_win :
    checkWin metaWonBoard = none ∧ checkDraw metaWonBoard = none :=
  ⟨rfl, rfl⟩

/-- C5: the claim states that a move whose target cell is already occupied
is rejected with a CellOccupied error before the move is applied.  The game
loop performs no occupancy check at all: on a board whose sub-board 1 has a
mark in its square a, the move 1a passes validation and reaches makeMove,
advancing the state instead of being rejected. -/
theorem occupied_cell_move_is_not_rejected :
    (occupiedCellBoard.small_boards.getD 0 emptySmall).squares.getD 0 0 = 1 ∧
    loopStep occupiedCellBoard activeAll true "1a" =
      StepResult.advance occupiedCellBoard [] false := by
  refine ⟨rfl, ?_⟩
  decide

/-- C6: whenever one iteration of the game loop rejects the input and
re-prompts, the state carried into the next iteration (board, active-board
list and player flag) is exactly the state before the attempt. -/
theorem rejected_move_leaves_state_unchanged (b : Board) (a : List Int)
    (f : Bool) (m : String) (b' : Board) (a' : List Int) (f' : Bool)
    (h : loopStep b a f m = StepResult.retry b' a' f') :
    b' = b ∧ a' = a ∧ f' = f := by
  rw [loopStep_eq] at h
  split_ifs at h
  cases h
  exact ⟨rfl, rfl, rfl⟩

/-- Witness for C6 at the concrete rejected input zz. -/
theorem rejected_move_leaves_state_unchanged_witness :
    loopStep initialBoard activeAll true "zz" =
      StepResult.retry initialBoard activeAll true ∧
    (initialBoard = initialBoard ∧ activeAll = activeAll ∧ true = true) := by
  refine ⟨by decide, ?_⟩
  exact rejected_move_leaves_state_unchanged initialBoard activeAll true "zz"
    initialBoard activeAll true (by decide)

/-- C7: whenever one iteration of the game loop applies a move and continues
(no winner announced, no exit), the player flag carried into the next
iteration is the negation of the one before the move. -/
theorem applied_move_alternates_player (b : Board) (a : List Int) (f : Bool)
    (m : String) (b' : Board) (a' : List Int) (f' : Bool)
    (h : loopStep b a f m = StepResult.advance b' a' f') :
    f' = !f := by
  rw [loopStep_eq] at h
  split_ifs at h
  cases h
  rfl

/-- Witness for C7 at the concrete accepted input 1a. -/
theorem applied_move_alternates_player_witness :
    loopStep initialBoard activeAll true "1a" =
      StepResult.advance initialBoard [] false ∧ false = !true := by
  refine ⟨by decide, ?_⟩
  exact applied_move_alternates_player initialBoard activeAll true "1a"
    initialBoard [] false (by decide)

/-- C8: makeMove returns its input board unchanged together with an empty
active-board list, for every board, active list, move string and player
flag. -/
theorem makeMove_returns_board_and_empty_list (b : Board) (a : List Int)
    (m : String) (f : Bool) :
    makeMove b a m f = (b, ([] : List Int)) :=
  rfl

/-- C9: checkWin returns None on every board, the win-announcement branch of
the game loop is never taken, and an iteration exits the loop exactly when
the input is the literal string exit. -/
theorem win_branch_never_taken (b : Board) (a : List Int) (f : Bool)
    (m : String) :
    checkWin b = none ∧ (loopStep b a f m).isWinExit = false ∧
    ((loopStep b a f m).isQuit = true ↔ m = "exit") := by
  refine ⟨rfl, ?_, ?_⟩ <;> rw [loopStep_eq] <;> split_ifs <;>
    simp_all [StepResult.isWinExit, StepResult.isQuit]

/-- C10 counterexample: the input exit fails the validity condition claimed
for reaching makeMove (its length is 4, not 2), yet the iteration does not
reject it with a re-prompt: the process exits instead. -/
theorem invalid_input_exit_is_not_reprompted :
    specValidInput activeAll "exit" = false ∧
    (loopStep initialBoard activeAll true "exit").isRetry = false := by
  decide

/-- C10 (amended): one iteration of the game loop reaches the makeMove call
exactly when the input has length 2, its first character is a digit 1..9
whose integer value is in the active-board list, and its second character is
a letter a..i; every other input, except the literal string exit which
terminates the program, is rejected with a re-prompt (state unchanged)
before makeMove is reached. -/
theorem makeMove_reached_iff_input_valid (b : Board) (a : List Int)
    (f : Bool) (m : String) :
    ((loopStep b a f m).reachesMakeMove = true ↔ specValidInput a m = true) ∧
    (specValidInput a m = false → m ≠ "exit" →
      loopStep b a f m = StepResult.retry b a f) := by
  have hiff : (m.length = 2 ∧ m.toList.getD 0 ' ' ∈ digitChars ∧
      safe_int (String.singleton (m.toList.getD 0 ' ')) ∈ a ∧
      m.toList.getD 1 ' ' ∈ positionChars) ↔
      (m.length = 2 ∧ m.toList.getD 0 ' ' ∈ digitChars ∧
      ((m.toList.getD 0 ' ').toNat : Int) - 48 ∈ a ∧
      m.toList.getD 1 ' ' ∈ positionChars) := by
    constructor
    · rintro ⟨h1, h2, h3, h4⟩
      rw [safe_int_digit h2] at h3
      exact ⟨h1, h2, h3, h4⟩
    · rintro ⟨h1, h2, h3, h4⟩
      rw [← safe_int_digit h2] at h3
      exact ⟨h1, h2, h3, h4⟩
  constructor
  · rw [loopStep_eq]
    split_ifs with hx hv
    · subst hx
      simp [StepResult.reachesMakeMove,
        show specValidInput a "exit" = false from rfl]
    · simp only [StepResult.reachesMakeMove, specValidInput,
        decide_eq_true_eq, true_iff]
      exact hiff.mp hv
    · simp only [StepResult.reachesMakeMove, specValidInput,
        decide_eq_true_eq, Bool.false_eq_true, false_iff]
      exact fun hs => hv (hiff.mpr hs)
  · intro hsf hne
    simp only [specValidInput, decide_eq_false_iff_not] at hsf
    rw [loopStep_eq, if_neg hne, if_neg fun hc => hsf (hiff.mp hc)]

/-- Witness for C10 at the accepted input 1a and the rejected input zz. -/
theorem makeMove_reached_iff_input_valid_witness :
    (loopStep initialBoard activeAll true "1a").reachesMakeMove = true ∧
    loopStep initialBoard activeAll true "zz" =
      StepResult.retry initialBoard activeAll true := by
  constructor
  · exact (makeMove_reached_iff_input_valid initialBoard activeAll true
      "1a").1.mpr (by decide)
  · exact (makeMove_reached_iff_input_valid initialBoard activeAll true
      "zz").2 (by decide) (by decide)
